import Mathlib

/-!
# Verification of the CodeSlice Remote Issue Fetcher (`jiraService.ts`)

A shallow embedding of the `JiraService` class from
`src/services/jiraService.ts`: the paginated fetch loop
(`getCurrentUserIssues`), the per-issue normalizer (`transformIssue`) and
the rich-text document extractor (`extractDescription`), together with
theorems settling the specification's claims about them.

Modelling conventions:
* Dynamic JavaScript values (the raw server payload) are embedded as the
  inductive `JsVal`.  `JsVal.null` stands for both `null` and `undefined`
  (the code never distinguishes them: `?.`, `??` and truthiness treat them
  alike).
* JavaScript numbers appearing in pagination metadata are embedded as
  `Int` (the code only compares and adds them).
* JavaScript strings are embedded as Lean `String`; `.length` and
  `.slice(0, n)` count UTF-16 code units, which for the characters
  involved here coincide with code points, so they are modelled by
  code-point length and `List.take` on the character list.
* A thrown exception is embedded as `Except.error` / `FetchResult.error`.
* The HTTP transport is embedded as a list of server responses consumed
  in order, one per request issued; a run that would issue more requests
  than the list provides ends in `FetchResult.outOfPages`.
-/

/-- A dynamic JavaScript value, as delivered by `res.json()`.
`null` stands for both `null` and `undefined`. -/
inductive JsVal where
  | null : JsVal
  | bool : Bool → JsVal
  | num : Int → JsVal
  | str : String → JsVal
  | arr : List JsVal → JsVal
  | obj : List (String × JsVal) → JsVal

namespace JsVal

/-- Property access `v?.k` (and `v.k` on a non-nullish `v`): returns the
field value on an object that has the field, `null` (= `undefined`)
otherwise. -/
def get (v : JsVal) (k : String) : JsVal :=
  match v with
  | .obj fields => ((fields.find? (fun p => p.1 = k)).map Prod.snd).getD .null
  | _ => .null

/-- JavaScript truthiness of a value (`NaN` is not modelled). -/
def truthy : JsVal → Bool
  | .null => false
  | .bool b => b
  | .num n => n ≠ 0
  | .str s => s ≠ ""
  | .arr _ => true
  | .obj _ => true

/-- Is the value an array (`Array.isArray`)? -/
def isArr : JsVal → Bool
  | .arr _ => true
  | _ => false

/-- Stringification as used by template literals and `Array.prototype.join`.
`JsVal.null` prints as "undefined" (the reachable case in this code is an
absent property, which is `undefined`). -/
def toDisplay : JsVal → String
  | .null => "undefined"
  | .bool b => if b then "true" else "false"
  | .num n => toString n
  | .str s => s
  | .arr _ => ""
  | .obj _ => "[object Object]"

/-- Is the value nullish (`null`/`undefined`)? -/
def isNullish : JsVal → Bool
  | .null => true
  | _ => false

/-- The nullish-coalescing operator `v ?? d`. -/
def nvl (v : JsVal) (d : JsVal) : JsVal :=
  match v with
  | .null => d
  | w => w

end JsVal

/-- `baseUrl.replace(/\/+$/, '')`: strip every trailing `/`. -/
def stripTrailingSlashes (s : String) : String :=
  String.mk ((s.data.reverse.dropWhile (fun c => c = '/')).reverse)

/-- `s.slice(0, n)`: the first `n` characters of `s`. -/
def strTake (s : String) (n : Nat) : String :=
  String.mk (s.data.take n)

/-- The literal appended by `transformIssue` on truncation: the source
file contains the three characters U+00E2 U+20AC U+00A6. -/
def ellipsisMarker : String := "â€¦"

/-- The truncation applied to the extracted description in
`transformIssue`: `description.length > 100 ? description.slice(0, 100) + marker : description`. -/
def truncateDesc (s : String) : String :=
  if 100 < s.length then strTake s 100 ++ ellipsisMarker else s

/-- JavaScript `s.trim()`: remove leading and trailing whitespace. -/
def jsTrim (s : String) : String :=
  String.mk (((s.data.dropWhile Char.isWhitespace).reverse.dropWhile Char.isWhitespace).reverse)

/-- Collapse every run of whitespace characters to a single space
(`.replace(/\s+/g, ' ')`), character-list worker. -/
def collapseWsAux : List Char → Bool → List Char
  | [], _ => []
  | c :: cs, prevWs =>
    if c.isWhitespace then
      if prevWs then collapseWsAux cs true else ' ' :: collapseWsAux cs true
    else c :: collapseWsAux cs false

/-- `s.replace(/\s+/g, ' ')`. -/
def collapseWs (s : String) : String :=
  String.mk (collapseWsAux s.data false)

/-- The text a `walk`ed node contributes on its own account:
`if (node.type === 'text' && node.text) parts.push(node.text)`. -/
def nodeOwnText (fields : List (String × JsVal)) : List String :=
  match (JsVal.obj fields).get "type" with
  | .str t =>
    if t = "text" ∧ ((JsVal.obj fields).get "text").truthy then
      [((JsVal.obj fields).get "text").toDisplay]
    else []
  | _ => []

mutual

/-- The recursive `walk` of `extractDescription`: depth-first, pre-order
collection of the text payloads of text-tagged nodes.  A non-object node
(`null`, primitives, arrays) has no `type`/`text`/`content` properties and
contributes nothing, which also covers the `if (!node) return` guard. -/
def jwalk : JsVal → List String
  | .obj fields => nodeOwnText fields ++ jwalkFields fields
  | _ => []

/-- `if (Array.isArray(node.content)) node.content.forEach(walk)`:
scan the object's fields for the first `content` entry; walk its elements
when it is an array, treat it as no children otherwise. -/
def jwalkFields : List (String × JsVal) → List String
  | [] => []
  | (k, v) :: rest =>
    if k = "content" then
      match v with
      | .arr elems => jwalkAll elems
      | _ => []
    else jwalkFields rest

/-- `forEach(walk)` over a list of nodes. -/
def jwalkAll : List JsVal → List String
  | [] => []
  | v :: vs => jwalk v ++ jwalkAll vs

end

/-- `extractDescription` from `jiraService.ts`: the sentinel for a falsy
field, the trimmed string for a plain string (sentinel when the trim is
empty), and otherwise the flattened, whitespace-collapsed text of the
rich-text document when its `content` is an array (sentinel when that
text is empty or `content` is not an array).  Nothing in the embedded
traversal can throw, so the source's `try`/`catch` has no error arm. -/
def extractDescription (desc : JsVal) : String :=
  if ¬ desc.truthy then "No description"
  else
    match desc with
    | .str s => if jsTrim s = "" then "No description" else jsTrim s
    | _ =>
      match desc.get "content" with
      | .arr elems =>
        let text := jsTrim (collapseWs (String.intercalate " " (jwalkAll elems)))
        if text = "" then "No description" else text
      | _ => "No description"

/-- The normalized issue record (`JiraIssue` interface).  `description`
and `url` are always strings in the source (template literal /
`extractDescription` result); the remaining fields are raw server values
passed through `??`, so they stay dynamic. -/
structure JiraIssue where
  key : JsVal
  summary : JsVal
  description : String
  issueType : JsVal
  status : JsVal
  priority : JsVal
  url : String

/-- `transformIssue` from `jiraService.ts`.  The unguarded accesses
`issue.key` throw a `TypeError` when `issue` is nullish; every other
access uses `?.`/`??` and cannot throw. -/
def transformIssue (baseUrl : String) (issue : JsVal) : Except String JiraIssue :=
  if issue.isNullish then
    .error "TypeError: Cannot read properties of null/undefined (reading key)"
  else
    .ok
      { key := issue.get "key"
        summary := ((issue.get "fields").get "summary").nvl (.str "No Summary")
        description := truncateDesc (extractDescription ((issue.get "fields").get "description"))
        issueType := (((issue.get "fields").get "issuetype").get "name").nvl (.str "Unknown")
        status := (((issue.get "fields").get "status").get "name").nvl (.str "Unknown")
        priority := (((issue.get "fields").get "priority").get "name").nvl (.str "Unknown")
        url := stripTrailingSlashes baseUrl ++ "/browse/" ++ (issue.get "key").toDisplay }

/-- The parsed body of one successful search page
(`{ issues, startAt, maxResults, total }`); each metadata field may be
absent from the JSON (`undefined`), hence `Option`. -/
structure PageResponse where
  issues : List JsVal
  startAtField : Option Int
  maxResultsField : Option Int
  totalField : Option Int

/-- One HTTP exchange as seen by the loop: either a success whose body
parsed to a `PageResponse`, or a non-ok status with its status text and
raw body text. -/
inductive ServerResp where
  | ok : PageResponse → ServerResp
  | err : Nat → String → String → ServerResp

/-- Outcome of a fetch run.  Both terminating constructors carry the log
of requests issued, as `(startAt, maxResults)` query-parameter pairs;
`outOfPages` marks a run that wanted more pages than the supplied
response list provides. -/
inductive FetchResult where
  | ok : List JiraIssue → List (Int × Int) → FetchResult
  | error : String → List (Int × Int) → FetchResult
  | outOfPages : List (Int × Int) → FetchResult

/-- The inner `for (const issue of data.issues)` loop: transform and
append each raw issue, stopping as soon as the accumulator has reached
`maxToReturn`; a `TypeError` thrown by `transformIssue` aborts the fetch. -/
def pushIssues (maxToReturn : Int) (baseUrl : String) :
    List JiraIssue → List JsVal → Except String (List JiraIssue)
  | acc, [] => .ok acc
  | acc, issue :: rest =>
    match transformIssue baseUrl issue with
    | .error e => .error e
    | .ok rec =>
      if maxToReturn ≤ ((acc ++ [rec]).length : Int) then .ok (acc ++ [rec])
      else pushIssues maxToReturn baseUrl (acc ++ [rec]) rest

/-- The context-specific hint appended to the error message for a
non-ok status. -/
def errorHint (status : Nat) : String :=
  if status = 401 ∨ status = 403 then
    " Check your site URL (e.g. https://yourcompany.atlassian.net), email, and API token permissions."
  else if status = 400 then
    " The JQL or fields may be invalid for this site."
  else ""

/-- The message of the error thrown for a non-ok response:
`Jira API error: <status> <statusText> - <text><hint>`. -/
def fetchErrorMessage (status : Nat) (statusText : String) (body : String) : String :=
  "Jira API error: " ++ toString status ++ " " ++ statusText ++ " - " ++ body
    ++ errorHint status

/-- The `while (accumulated.length < maxToReturn)` loop of
`getCurrentUserIssues`, one recursive step per HTTP request, consuming
the response list in order.  `pageSize` is the constant
`Math.min(50, maxToReturn)` computed before the loop; `startAt` is the
local cursor; `log` records the `(startAt, maxResults)` pairs sent. -/
def fetchLoop (baseUrl : String) (maxToReturn : Int) (pageSize : Int)
    (acc : List JiraIssue) (startAt : Int) (log : List (Int × Int)) :
    List ServerResp → FetchResult
  | [] =>
    if (acc.length : Int) < maxToReturn then .outOfPages log else .ok acc log
  | resp :: rest =>
    if (acc.length : Int) < maxToReturn then
      match resp with
      | .err status statusText body =>
        .error (fetchErrorMessage status statusText body)
          (log ++ [(startAt, min pageSize (maxToReturn - (acc.length : Int)))])
      | .ok page =>
        match pushIssues maxToReturn baseUrl acc page.issues with
        | .error e =>
          .error e (log ++ [(startAt, min pageSize (maxToReturn - (acc.length : Int)))])
        | .ok acc' =>
          if page.totalField.getD (acc'.length : Int)
              ≤ page.startAtField.getD startAt + page.maxResultsField.getD pageSize then
            .ok acc' (log ++ [(startAt, min pageSize (maxToReturn - (acc.length : Int)))])
          else
            fetchLoop baseUrl maxToReturn pageSize acc'
              (page.startAtField.getD startAt + page.maxResultsField.getD pageSize)
              (log ++ [(startAt, min pageSize (maxToReturn - (acc.length : Int)))]) rest
    else .ok acc log

/-- `getCurrentUserIssues(maxToReturn)` run against a list of server
responses: fresh accumulator, cursor `0`, page size
`Math.min(50, maxToReturn)`. -/
def getCurrentUserIssues (baseUrl : String) (maxToReturn : Int)
    (responses : List ServerResp) : FetchResult :=
  fetchLoop baseUrl maxToReturn (min 50 maxToReturn) [] 0 [] responses

/-- A normalized record with no usable `fields` data: all sentinels. -/
def sentinelRecord (k : JsVal) (u : String) : JiraIssue :=
  ⟨k, .str "No Summary", "No description", .str "Unknown", .str "Unknown", .str "Unknown", u⟩

/-- C10: for every `maxToReturn ≤ 0` the fetch returns the empty sequence
and issues no HTTP request at all, because the loop guard
`accumulated.length < maxToReturn` is false on entry. -/
theorem C10_nonpositive_max_returns_empty (max : Int) (hmax : max ≤ 0)
    (base : String) (responses : List ServerResp) :
    getCurrentUserIssues base max responses = .ok [] [] := by
  have h : ¬ ((List.length ([] : List JiraIssue) : Int) < max) := by
    intro hc
    simp at hc
    omega
  cases responses with
  | nil =>
    unfold getCurrentUserIssues fetchLoop
    rw [if_neg h]
  | cons r rs =>
    unfold getCurrentUserIssues fetchLoop
    rw [if_neg h]

/-- C10 witness: at `maxToReturn = 0` against a server that would answer
with an error, nothing is requested and the empty list is returned. -/
theorem C10_witness :
    (0 : Int) ≤ 0
    ∧ getCurrentUserIssues "u" 0 [ServerResp.err 500 "Internal Server Error" "boom"]
        = .ok [] [] :=
  ⟨le_refl 0, C10_nonpositive_max_returns_empty 0 (le_refl 0) "u" _⟩

/-- C9: the `url` of every produced record is the base URL with all
trailing slashes stripped, then `/browse/`, then the key; for
`baseUrl = "https://x.atlassian.net/"` and key `"ABC-1"` this is
`"https://x.atlassian.net/browse/ABC-1"` with no double slash. -/
theorem C9_url_derivation :
    (∀ (base : String) (issue : JsVal) (rec : JiraIssue),
        transformIssue base issue = .ok rec →
        rec.url = stripTrailingSlashes base ++ "/browse/" ++ (issue.get "key").toDisplay)
    ∧ (∀ key : String, (JsVal.str key).toDisplay = key)
    ∧ stripTrailingSlashes "https://x.atlassian.net/" = "https://x.atlassian.net"
    ∧ transformIssue "https://x.atlassian.net/" (JsVal.obj [("key", JsVal.str "ABC-1")])
        = .ok (sentinelRecord (.str "ABC-1") "https://x.atlassian.net/browse/ABC-1") := by
  refine ⟨?_, fun key => rfl, rfl, rfl⟩
  intro base issue rec h
  unfold transformIssue at h
  split at h
  · exact absurd h (by simp)
  · have := Except.ok.inj h
    subst this
    rfl

/-- C9 witness: the general derivation applied to the concrete base URL
and key of the claim. -/
theorem C9_witness :
    transformIssue "https://x.atlassian.net/" (JsVal.obj [("key", JsVal.str "ABC-1")])
      = .ok (sentinelRecord (.str "ABC-1") "https://x.atlassian.net/browse/ABC-1")
    ∧ (sentinelRecord (.str "ABC-1") "https://x.atlassian.net/browse/ABC-1").url
        = stripTrailingSlashes "https://x.atlassian.net/" ++ "/browse/"
            ++ ((JsVal.obj [("key", JsVal.str "ABC-1")]).get "key").toDisplay :=
  ⟨rfl, C9_url_derivation.1 "https://x.atlassian.net/" _ _ rfl⟩

/-- C6: the description field of the record is the extracted text,
unchanged when its length is at most 100, and otherwise exactly its
first 100 characters followed by one appended truncation marker (the
marker being the literal the source appends). -/
theorem C6_truncation :
    (∀ s : String, 100 < s.length →
        truncateDesc s = strTake s 100 ++ ellipsisMarker ∧ (strTake s 100).length = 100)
    ∧ (∀ s : String, s.length ≤ 100 → truncateDesc s = s)
    ∧ (∀ (base : String) (issue : JsVal) (rec : JiraIssue),
        transformIssue base issue = .ok rec →
        rec.description = truncateDesc (extractDescription ((issue.get "fields").get "description"))) := by
  refine ⟨?_, ?_, ?_⟩
  · intro s h
    refine ⟨by rw [truncateDesc, if_pos h], ?_⟩
    have h' : 100 ≤ s.data.length := le_of_lt h
    change (s.data.take 100).length = 100
    rw [List.length_take]
    omega
  · intro s h
    rw [truncateDesc, if_neg (not_lt.mpr h)]
  · intro base issue rec h
    unfold transformIssue at h
    split at h
    · exact absurd h (by simp)
    · have := Except.ok.inj h
      subst this
      rfl

/-- C6 witness: a 101-character string is cut to its first 100
characters plus the marker; a short string is unchanged. -/
theorem C6_witness :
    (100 < (String.mk (List.replicate 101 'a')).length
      ∧ truncateDesc (String.mk (List.replicate 101 'a'))
          = strTake (String.mk (List.replicate 101 'a')) 100 ++ ellipsisMarker
      ∧ (strTake (String.mk (List.replicate 101 'a')) 100).length = 100)
    ∧ ("hi".length ≤ 100 ∧ truncateDesc "hi" = "hi") :=
  ⟨⟨by decide, C6_truncation.1 _ (by decide)⟩, by decide, C6_truncation.2.1 "hi" (by decide)⟩

/-- C3: a non-ok page response makes the fetch fail with the message
`Jira API error: <status> <statusText> - <body><hint>`, with the
authentication hint for 401/403 and the malformed-query hint for 400,
and the caller receives no records: whatever was accumulated from
earlier successful pages, the result is an error, never a record list. -/
theorem C3_http_error_fail_fast (base : String) (max pageSize startAt : Int)
    (acc : List JiraIssue) (log : List (Int × Int))
    (status : Nat) (statusText body : String) (rest : List ServerResp)
    (hg : ((acc.length : Int) < max)) :
    (fetchLoop base max pageSize acc startAt log (.err status statusText body :: rest)
        = .error (fetchErrorMessage status statusText body)
            (log ++ [(startAt, min pageSize (max - (acc.length : Int)))]))
    ∧ fetchErrorMessage status statusText body
        = "Jira API error: " ++ toString status ++ " " ++ statusText ++ " - " ++ body
            ++ errorHint status
    ∧ (status = 401 ∨ status = 403 →
        errorHint status
          = " Check your site URL (e.g. https://yourcompany.atlassian.net), email, and API token permissions.")
    ∧ (status = 400 →
        errorHint status = " The JQL or fields may be invalid for this site.")
    ∧ (∀ (issues : List JiraIssue) (log2 : List (Int × Int)),
        fetchLoop base max pageSize acc startAt log (.err status statusText body :: rest)
          ≠ .ok issues log2) := by
  have hstep : fetchLoop base max pageSize acc startAt log (.err status statusText body :: rest)
      = .error (fetchErrorMessage status statusText body)
          (log ++ [(startAt, min pageSize (max - (acc.length : Int)))]) := by
    unfold fetchLoop
    rw [if_pos hg]
  refine ⟨hstep, rfl, ?_, ?_, ?_⟩
  · intro h
    rw [errorHint, if_pos h]
  · intro h
    subst h
    rfl
  · intro issues log2
    rw [hstep]
    simp

/-- C3 witness: a 401 on a page requested with one record already
accumulated fails with the authentication-hinted message and discards
the accumulated record. -/
theorem C3_witness :
    ((List.length [sentinelRecord (.str "K") "u/browse/K"] : Int) < 10)
    ∧ fetchLoop "u" 10 10 [sentinelRecord (.str "K") "u/browse/K"] 5 [(0, 10)]
        [.err 401 "Unauthorized" "denied"]
        = .error (fetchErrorMessage 401 "Unauthorized" "denied")
            ([(0, 10)] ++ [(5, min 10 (10 - (List.length [sentinelRecord (.str "K") "u/browse/K"] : Int)))])
    ∧ errorHint 401
        = " Check your site URL (e.g. https://yourcompany.atlassian.net), email, and API token permissions." :=
  ⟨by decide,
   (C3_http_error_fail_fast "u" 10 10 5 [sentinelRecord (.str "K") "u/browse/K"] [(0, 10)]
      401 "Unauthorized" "denied" [] (by decide)).1,
   (C3_http_error_fail_fast "u" 10 10 5 [sentinelRecord (.str "K") "u/browse/K"] [(0, 10)]
      401 "Unauthorized" "denied" [] (by decide)).2.2.1 (Or.inl rfl)⟩

/-- Coalescing a nullish value yields the default. -/
theorem JsVal.nvl_null (d : JsVal) : JsVal.nvl .null d = d := rfl

/-- Coalescing a non-nullish value passes it through verbatim. -/
theorem JsVal.nvl_of_ne_null (v d : JsVal) (h : v ≠ .null) : JsVal.nvl v d = v := by
  cases v
  · exact absurd rfl h
  all_goals rfl

/-- `extractDescription` never returns the empty string: every branch
either returns the sentinel or a string it has checked to be nonempty. -/
theorem extractDescription_ne_empty (v : JsVal) : extractDescription v ≠ "" := by
  unfold extractDescription
  split
  · simp
  · split
    · split
      · simp
      · assumption
    · split
      · dsimp only
        split
        · simp
        · assumption
      · simp

/-- Appending the truncation marker keeps a string nonempty, so
truncation preserves nonemptiness. -/
theorem truncateDesc_ne_empty (s : String) (h : s ≠ "") : truncateDesc s ≠ "" := by
  unfold truncateDesc
  split
  · intro he
    have hlen := congrArg String.length he
    rw [String.length_append] at hlen
    have hm : ellipsisMarker.length = 3 := by decide
    have hz : ("" : String).length = 0 := by decide
    omega
  · exact h

/-- C4 counterexample: a server `summary` that is present but equal to
the empty string is propagated verbatim, so the output `summary` IS
empty — refuting "every field ... never empty". -/
theorem C4_counterexample :
    transformIssue "https://x" (.obj [("key", .str "K"), ("fields", .obj [("summary", .str "")])])
      = .ok ⟨.str "K", .str "", "No description", .str "Unknown", .str "Unknown", .str "Unknown",
             "https://x/browse/K"⟩ := rfl

/-- C4 (amended): `summary`/`issueType`/`status`/`priority` are coerced
to their sentinels exactly when the corresponding access path is
nullish; any non-nullish server value — including an empty string or a
non-string — is propagated verbatim; the description is the sentinel
when the field is nullish and is never the empty string.  (`key` is
copied verbatim and not guarded.) -/
theorem C4_sentinel_on_nullish (base : String) (issue : JsVal) (rec : JiraIssue)
    (h : transformIssue base issue = .ok rec) :
    ((issue.get "fields").get "summary" = .null → rec.summary = .str "No Summary")
    ∧ ((issue.get "fields").get "summary" ≠ .null →
        rec.summary = (issue.get "fields").get "summary")
    ∧ (((issue.get "fields").get "issuetype").get "name" = .null → rec.issueType = .str "Unknown")
    ∧ (((issue.get "fields").get "issuetype").get "name" ≠ .null →
        rec.issueType = ((issue.get "fields").get "issuetype").get "name")
    ∧ (((issue.get "fields").get "status").get "name" = .null → rec.status = .str "Unknown")
    ∧ (((issue.get "fields").get "status").get "name" ≠ .null →
        rec.status = ((issue.get "fields").get "status").get "name")
    ∧ (((issue.get "fields").get "priority").get "name" = .null → rec.priority = .str "Unknown")
    ∧ (((issue.get "fields").get "priority").get "name" ≠ .null →
        rec.priority = ((issue.get "fields").get "priority").get "name")
    ∧ ((issue.get "fields").get "description" = .null → rec.description = "No description")
    ∧ rec.description ≠ "" ∧ rec.key = issue.get "key" := by
  unfold transformIssue at h
  split at h
  · exact absurd h (by simp)
  · have := Except.ok.inj h
    subst this
    refine ⟨fun hn => by rw [hn]; rfl, fun hn => JsVal.nvl_of_ne_null _ _ hn,
            fun hn => by rw [hn]; rfl, fun hn => JsVal.nvl_of_ne_null _ _ hn,
            fun hn => by rw [hn]; rfl, fun hn => JsVal.nvl_of_ne_null _ _ hn,
            fun hn => by rw [hn]; rfl, fun hn => JsVal.nvl_of_ne_null _ _ hn,
            fun hn => by rw [hn]; rfl,
            truncateDesc_ne_empty _ (extractDescription_ne_empty _), rfl⟩

/-- C4 witness: an issue with no `fields` at all gets every sentinel,
and its description is nonempty. -/
theorem C4_witness :
    transformIssue "b" (.obj []) = .ok (sentinelRecord .null "b/browse/undefined")
    ∧ (sentinelRecord .null "b/browse/undefined").summary = .str "No Summary"
    ∧ (sentinelRecord .null "b/browse/undefined").description ≠ "" :=
  ⟨rfl, (C4_sentinel_on_nullish "b" (.obj []) _ rfl).1 rfl,
   (C4_sentinel_on_nullish "b" (.obj []) _ rfl).2.2.2.2.2.2.2.2.2.1⟩

/-- Did a transformation succeed (no exception)? -/
def isOkResult : Except String JiraIssue → Bool
  | .ok _ => true
  | .error _ => false

/-- C7 counterexample: a nullish raw issue makes the unguarded
`issue.key` access throw, so `transformIssue` is NOT total over
arbitrary input. -/
theorem C7_counterexample :
    transformIssue "b" JsVal.null
      = .error "TypeError: Cannot read properties of null/undefined (reading key)" := rfl

/-- C7 (amended): `transformIssue` returns a record for every
non-nullish raw issue value, and `extractDescription` returns a
(nonempty) string for every input — including non-array `content`
values, which are treated as no children. -/
theorem C7_totality :
    (∀ (base : String) (issue : JsVal), issue.isNullish = false →
        isOkResult (transformIssue base issue) = true)
    ∧ (∀ desc : JsVal, extractDescription desc ≠ "")
    ∧ extractDescription (.obj [("content", .num 5)]) = "No description" := by
  refine ⟨?_, fun desc => extractDescription_ne_empty desc, rfl⟩
  intro base issue h
  unfold transformIssue
  rw [if_neg (by simp [h])]
  rfl

/-- C7 witness: a plain empty object is transformed without an
exception; the extractor yields a nonempty string on nullish input. -/
theorem C7_witness :
    (JsVal.obj []).isNullish = false
    ∧ isOkResult (transformIssue "b" (JsVal.obj [])) = true
    ∧ extractDescription JsVal.null ≠ "" :=
  ⟨rfl, C7_totality.1 "b" (.obj []) rfl, C7_totality.2.1 .null⟩

/-- The document of spec property P5:
`{content: [{content: [{type:"text", text:"foo"}]}, {type:"text", text:"bar"}]}`. -/
def nestedDocExample : JsVal :=
  .obj [("content", .arr [
    .obj [("content", .arr [ .obj [("type", .str "text"), ("text", .str "foo")] ])],
    .obj [("type", .str "text"), ("text", .str "bar")] ])]

/-- C5: the extractor returns the sentinel on an absent/empty (falsy)
field, the trimmed string on a plain string (sentinel when the trim is
empty), and on a document whose `content` is an array the depth-first
pre-order text-node payloads joined by a single space with whitespace
runs collapsed and ends trimmed (sentinel when empty); the nested
example document flattens to `"foo bar"`. -/
theorem C5_extract_flattening :
    (∀ v : JsVal, v.truthy = false → extractDescription v = "No description")
    ∧ (∀ s : String,
        extractDescription (.str s) = if jsTrim s = "" then "No description" else jsTrim s)
    ∧ (∀ (fields : List (String × JsVal)) (elems : List JsVal),
        (JsVal.obj fields).get "content" = .arr elems →
        extractDescription (.obj fields)
          = (if jsTrim (collapseWs (String.intercalate " " (jwalkAll elems))) = ""
             then "No description"
             else jsTrim (collapseWs (String.intercalate " " (jwalkAll elems)))))
    ∧ extractDescription nestedDocExample = "foo bar" := by
  refine ⟨?_, ?_, ?_, ?_⟩
  · intro v hv
    unfold extractDescription
    rw [if_pos (by simp [hv])]
  · intro s
    by_cases h : s = ""
    · subst h
      rfl
    · unfold extractDescription
      rw [if_neg (by simp [JsVal.truthy, h])]
  · intro fields elems h
    unfold extractDescription
    rw [if_neg (by simp [JsVal.truthy])]
    dsimp only
    rw [h]
  · simp [extractDescription, nestedDocExample, jwalkAll, jwalk, jwalkFields, nodeOwnText,
      JsVal.truthy, JsVal.get, JsVal.toDisplay, List.find?, String.intercalate]
    rfl

/-- C5 witness: the falsy branch applied at `null`; the plain-string
branch applied at a padded string evaluates to its trim. -/
theorem C5_witness :
    JsVal.truthy JsVal.null = false
    ∧ extractDescription JsVal.null = "No description"
    ∧ extractDescription (.str "  hello world  ") = "hello world" :=
  ⟨rfl, C5_extract_flattening.1 .null rfl,
   (C5_extract_flattening.2.1 "  hello world  ").trans rfl⟩

/-- The inner per-page loop never grows the accumulator beyond
`maxToReturn`: it breaks as soon as the bound is reached. -/
theorem pushIssues_ok_length (max : Int) (base : String) :
    ∀ (issues : List JsVal) (acc : List JiraIssue), (acc.length : Int) < max →
    ∀ out, pushIssues max base acc issues = .ok out → (out.length : Int) ≤ max := by
  intro issues
  induction issues with
  | nil =>
    intro acc hacc out h
    unfold pushIssues at h
    have := Except.ok.inj h
    subst this
    exact le_of_lt hacc
  | cons i rest ih =>
    intro acc hacc out h
    unfold pushIssues at h
    split at h
    · exact absurd h (by simp)
    · split at h
      · rename_i hstop
        have hout := Except.ok.inj h
        subst hout
        simp only [List.length_append, List.length_singleton]
        push_cast
        omega
      · rename_i hstop
        exact ih _ (not_le.mp hstop) out h

/-- Whenever the fetch loop returns a record list, that list respects
the bound `maxToReturn`, provided the accumulator it started from did. -/
theorem fetchLoop_ok_length (base : String) (max pageSize : Int) :
    ∀ (responses : List ServerResp) (acc : List JiraIssue) (startAt : Int)
      (log : List (Int × Int)), (acc.length : Int) ≤ max →
    ∀ out l, fetchLoop base max pageSize acc startAt log responses = .ok out l →
    (out.length : Int) ≤ max := by
  intro responses
  induction responses with
  | nil =>
    intro acc startAt log hacc out l h
    unfold fetchLoop at h
    split at h
    · exact absurd h (by simp)
    · injection h with h1 h2
      subst h1
      exact hacc
  | cons r rest ih =>
    intro acc startAt log hacc out l h
    unfold fetchLoop at h
    split at h
    · rename_i hg
      split at h
      · exact absurd h (by simp)
      · split at h
        · exact absurd h (by simp)
        · rename_i acc' heq
          have hacc' : (acc'.length : Int) ≤ max :=
            pushIssues_ok_length max base _ acc hg acc' heq
          split at h
          · injection h with h1 h2
            subst h1
            exact hacc'
          · exact ih acc' _ _ hacc' out l h
    · injection h with h1 h2
      subst h1
      exact hacc

/-- C1: for every positive `maxCount` and every run over successful
pages that returns a record list, the list has length at most
`maxCount`. -/
theorem C1_length_bounded (max : Int) (hmax : 0 < max) (base : String)
    (responses : List ServerResp) (issues : List JiraIssue) (log : List (Int × Int))
    (h : getCurrentUserIssues base max responses = .ok issues log) :
    (issues.length : Int) ≤ max :=
  fetchLoop_ok_length base max (min 50 max) responses [] 0 []
    (by simp only [List.length_nil, Nat.cast_zero]; omega) issues log h

/-- C1 witness: a page offering three issues against `maxCount = 2`
returns exactly two records, within the bound. -/
theorem C1_witness :
    (0 : Int) < 2
    ∧ getCurrentUserIssues "u" 2
        [.ok ⟨[.obj [("key", .str "A")], .obj [("key", .str "B")], .obj [("key", .str "C")]],
              some 0, some 2, some 7⟩]
        = .ok [sentinelRecord (.str "A") "u/browse/A", sentinelRecord (.str "B") "u/browse/B"]
            [(0, 2)]
    ∧ ((List.length [sentinelRecord (.str "A") "u/browse/A",
          sentinelRecord (.str "B") "u/browse/B"] : Int) ≤ 2) :=
  ⟨by decide, rfl,
   C1_length_bounded 2 (by decide) "u"
     [.ok ⟨[.obj [("key", .str "A")], .obj [("key", .str "B")], .obj [("key", .str "C")]],
           some 0, some 2, some 7⟩]
     [sentinelRecord (.str "A") "u/browse/A", sentinelRecord (.str "B") "u/browse/B"]
     [(0, 2)] rfl⟩

/-- Modelled from the claim's wording of the cursor advance (C2 / spec
§4.1 step 6): identical to `fetchLoop` except that an absent server
`maxResults` falls back to the REQUESTED page size
`min(50, maxCount - accumulated)` instead of the fixed loop constant
`pageSize = min(50, maxCount)` the source uses. -/
def claimFetchLoop (baseUrl : String) (maxToReturn : Int)
    (acc : List JiraIssue) (startAt : Int) (log : List (Int × Int)) :
    List ServerResp → FetchResult
  | [] => if (acc.length : Int) < maxToReturn then .outOfPages log else .ok acc log
  | resp :: rest =>
    if (acc.length : Int) < maxToReturn then
      match resp with
      | .err status statusText body =>
        .error (fetchErrorMessage status statusText body)
          (log ++ [(startAt, min 50 (maxToReturn - (acc.length : Int)))])
      | .ok page =>
        match pushIssues maxToReturn baseUrl acc page.issues with
        | .error e =>
          .error e (log ++ [(startAt, min 50 (maxToReturn - (acc.length : Int)))])
        | .ok acc' =>
          if page.totalField.getD (acc'.length : Int)
              ≤ page.startAtField.getD startAt
                + page.maxResultsField.getD (min 50 (maxToReturn - (acc.length : Int))) then
            .ok acc' (log ++ [(startAt, min 50 (maxToReturn - (acc.length : Int)))])
          else
            claimFetchLoop baseUrl maxToReturn acc'
              (page.startAtField.getD startAt
                + page.maxResultsField.getD (min 50 (maxToReturn - (acc.length : Int))))
              (log ++ [(startAt, min 50 (maxToReturn - (acc.length : Int)))]) rest
    else .ok acc log

/-- The claim-version fetch entry point. -/
def claimGetCurrentUserIssues (baseUrl : String) (maxToReturn : Int)
    (responses : List ServerResp) : FetchResult :=
  claimFetchLoop baseUrl maxToReturn [] 0 [] responses

/-- C2 counterexample: with `maxCount = 60`, a short first page and a
second page that omits `maxResults`, the source advances the cursor by
the fixed `pageSize = 50` and stops after two requests, while the
claim's advance-by-the-requested-size rule (45) would keep paginating —
the two behaviors differ at this concrete input. -/
theorem C2_counterexample :
    getCurrentUserIssues "u" 60
      [.ok ⟨List.replicate 15 (.obj [("key", .str "K")]), some 0, some 50, some 98⟩,
       .ok ⟨List.replicate 5 (.obj [("key", .str "K")]), some 50, none, some 98⟩,
       .ok ⟨List.replicate 1 (.obj [("key", .str "K")]), some 95, some 1, some 98⟩]
      = .ok (List.replicate 20 (sentinelRecord (.str "K") "u/browse/K")) [(0, 50), (50, 45)]
    ∧ claimGetCurrentUserIssues "u" 60
      [.ok ⟨List.replicate 15 (.obj [("key", .str "K")]), some 0, some 50, some 98⟩,
       .ok ⟨List.replicate 5 (.obj [("key", .str "K")]), some 50, none, some 98⟩,
       .ok ⟨List.replicate 1 (.obj [("key", .str "K")]), some 95, some 1, some 98⟩]
      = .outOfPages [(0, 50), (50, 45), (95, 40)]
    ∧ (FetchResult.ok (List.replicate 20 (sentinelRecord (.str "K") "u/browse/K"))
          [(0, 50), (50, 45)]
        ≠ FetchResult.outOfPages [(0, 50), (50, 45), (95, 40)]) :=
  ⟨rfl, rfl, by simp⟩

/-- C2 (amended): each successful iteration requests
`maxResults = min(50, maxCount - accumulated)`, advances the cursor to
`(server startAt, or the local startAt) + (server maxResults, or the
FIXED page size min(50, maxCount))`, and requests a further page exactly
when the stop test `total ≤ cursor` fails and the accumulator is still
below `maxCount` (a full accumulator returns immediately with no
request). -/
theorem C2_pagination_step (base : String) (max startAt : Int)
    (acc acc' : List JiraIssue) (log : List (Int × Int)) (page : PageResponse)
    (rest : List ServerResp)
    (hg : (acc.length : Int) < max)
    (hpush : pushIssues max base acc page.issues = .ok acc') :
    (min (min 50 max) (max - (acc.length : Int)) = min 50 (max - (acc.length : Int)))
    ∧ fetchLoop base max (min 50 max) acc startAt log (.ok page :: rest)
        = (if page.totalField.getD (acc'.length : Int)
              ≤ page.startAtField.getD startAt + page.maxResultsField.getD (min 50 max) then
            .ok acc' (log ++ [(startAt, min 50 (max - (acc.length : Int)))])
           else
            fetchLoop base max (min 50 max) acc'
              (page.startAtField.getD startAt + page.maxResultsField.getD (min 50 max))
              (log ++ [(startAt, min 50 (max - (acc.length : Int)))]) rest)
    ∧ (∀ (startAt2 : Int) (acc2 : List JiraIssue) (log2 : List (Int × Int))
          (resps : List ServerResp), max ≤ (acc2.length : Int) →
          fetchLoop base max (min 50 max) acc2 startAt2 log2 resps = .ok acc2 log2) := by
  have h1 : min (min 50 max) (max - (acc.length : Int)) = min 50 (max - (acc.length : Int)) := by
    omega
  refine ⟨h1, ?_, ?_⟩
  · by_cases hc : page.totalField.getD (acc'.length : Int)
        ≤ page.startAtField.getD startAt + page.maxResultsField.getD (min 50 max)
    · rw [if_pos hc, fetchLoop, if_pos hg, hpush]
      dsimp only
      rw [if_pos hc, h1]
    · rw [if_neg hc, fetchLoop, if_pos hg, hpush]
      dsimp only
      rw [if_neg hc, h1]
  · intro startAt2 acc2 log2 resps hfull
    cases resps with
    | nil =>
      unfold fetchLoop
      rw [if_neg (not_lt.mpr hfull)]
    | cons r rs =>
      unfold fetchLoop
      rw [if_neg (not_lt.mpr hfull)]

/-- C2 witness: the amended step applied to the concrete second page of
the counterexample run — the request asks for 45, the cursor advances by
the fixed 50, and 98 ≤ 100 stops the loop. -/
theorem C2_witness :
    ((List.replicate 15 (sentinelRecord (.str "K") "u/browse/K")).length : Int) < 60
    ∧ pushIssues 60 "u" (List.replicate 15 (sentinelRecord (.str "K") "u/browse/K"))
        (List.replicate 5 (JsVal.obj [("key", JsVal.str "K")]))
        = .ok (List.replicate 20 (sentinelRecord (.str "K") "u/browse/K"))
    ∧ fetchLoop "u" 60 (min 50 60) (List.replicate 15 (sentinelRecord (.str "K") "u/browse/K"))
        50 [(0, 50)]
        [.ok ⟨List.replicate 5 (JsVal.obj [("key", JsVal.str "K")]), some 50, none, some 98⟩]
        = .ok (List.replicate 20 (sentinelRecord (.str "K") "u/browse/K")) [(0, 50), (50, 45)] :=
  ⟨by decide, rfl,
   ((C2_pagination_step "u" 60 50 (List.replicate 15 (sentinelRecord (.str "K") "u/browse/K"))
       (List.replicate 20 (sentinelRecord (.str "K") "u/browse/K")) [(0, 50)]
       ⟨List.replicate 5 (JsVal.obj [("key", JsVal.str "K")]), some 50, none, some 98⟩
       [] (by decide) rfl).2.1).trans rfl⟩

/-- C8 counterexample: a single page that omits `total` but reports
`startAt = 0, maxResults = 0` while delivering one issue makes the loop
ask for a SECOND page (the one-response run ends `outOfPages`), refuting
"stopping after the current page" for every response omitting `total`. -/
theorem C8_counterexample :
    getCurrentUserIssues "u" 100
      [.ok ⟨[JsVal.obj [("key", JsVal.str "K")]], some 0, some 0, none⟩]
      = .outOfPages [(0, 50)] := rfl

/-- C8 (amended): when a page omits `total`, the loop's `total` falls
back to the accumulated count, and the fetch stops after the current
page provided the advanced cursor is at least that count — in
particular whenever the server echoes the request's offset and size, or
omits them, and returns no more than the requested number of issues. -/
theorem C8_total_fallback_stops (base : String) (max pageSize startAt : Int)
    (acc acc' : List JiraIssue) (log : List (Int × Int)) (page : PageResponse)
    (rest : List ServerResp)
    (hg : (acc.length : Int) < max)
    (hpush : pushIssues max base acc page.issues = .ok acc')
    (htotal : page.totalField = none)
    (hcur : (acc'.length : Int)
        ≤ page.startAtField.getD startAt + page.maxResultsField.getD pageSize) :
    fetchLoop base max pageSize acc startAt log (.ok page :: rest)
      = .ok acc' (log ++ [(startAt, min pageSize (max - (acc.length : Int)))]) := by
  rw [fetchLoop, if_pos hg, hpush]
  dsimp only
  rw [htotal, Option.getD_none, if_pos hcur]

/-- C8 witness: a well-behaved page (echoed metadata, `total` absent)
stops the fetch right after itself. -/
theorem C8_witness :
    ((List.length ([] : List JiraIssue) : Int) < 100)
    ∧ pushIssues 100 "u" [] [JsVal.obj [("key", JsVal.str "K")]]
        = .ok [sentinelRecord (.str "K") "u/browse/K"]
    ∧ ((List.length [sentinelRecord (.str "K") "u/browse/K"] : Int)
        ≤ (some (0 : Int)).getD 0 + (some (50 : Int)).getD 50)
    ∧ fetchLoop "u" 100 50 [] 0 []
        [.ok ⟨[JsVal.obj [("key", JsVal.str "K")]], some 0, some 50, none⟩]
        = .ok [sentinelRecord (.str "K") "u/browse/K"] [(0, 50)] :=
  ⟨by decide, rfl, by decide,
   (C8_total_fallback_stops "u" 100 50 0 [] [sentinelRecord (.str "K") "u/browse/K"] []
      ⟨[JsVal.obj [("key", JsVal.str "K")]], some 0, some 50, none⟩ []
      (by decide) rfl rfl (by decide)).trans rfl⟩
